import Mathlib

/-!
Verification of the Dataset / AccessEntry core of the examined repository.

The repository ships the unit tests of the core
(src/bigquery/tests/unit/test_dataset.py) but not the module
google/cloud/bigquery/dataset.py itself, so the definitions below are
modelled from the natural-language specification (spec.md sections 3, 4,
6 and 7), cross-checked against the behaviour the unit tests assert.

Wire values (parsed JSON) are modelled by the mutual inductive family
JValue / JList / JObj; an object is an ordered association list of
string keys, mirroring a Python dict with distinct keys.
-/

mutual

/-- Wire value: the JSON-like nested mapping exchanged with the service. -/
inductive JValue where
  | null
  | str (s : String)
  | num (n : Int)
  | arr (xs : JList)
  | obj (fs : JObj)
deriving DecidableEq, Repr

/-- List of wire values. -/
inductive JList where
  | nil
  | cons (hd : JValue) (tl : JList)
deriving DecidableEq, Repr

/-- Wire object: ordered association list of string keys to wire values. -/
inductive JObj where
  | nil
  | cons (k : String) (v : JValue) (tl : JObj)
deriving DecidableEq, Repr

end

/-- Convert a Lean list of values to a JList. -/
def JList.ofList : List JValue → JList
  | [] => .nil
  | x :: xs => .cons x (JList.ofList xs)

/-- Convert a JList to a Lean list of values. -/
def JList.toList : JList → List JValue
  | .nil => []
  | .cons x xs => x :: xs.toList

/-- Convert a Lean association list to a JObj. -/
def JObj.ofList : List (String × JValue) → JObj
  | [] => .nil
  | (k, v) :: xs => .cons k v (JObj.ofList xs)

/-- Look up a key in a wire object (first binding wins, as in a dict). -/
def JObj.lookup : JObj → String → Option JValue
  | .nil, _ => none
  | .cons k v tl, key => if k = key then some v else tl.lookup key

/-- Remove every binding of a key from a wire object (dict pop). -/
def JObj.erase : JObj → String → JObj
  | .nil, _ => .nil
  | .cons k v tl, key => if k = key then tl.erase key else .cons k v (tl.erase key)

/-- Keys of a wire object, in order. -/
def JObj.keys : JObj → List String
  | .nil => []
  | .cons k _ tl => k :: tl.keys

/-- Concatenation of two wire objects. -/
def JObj.append : JObj → JObj → JObj
  | .nil, b => b
  | .cons k v tl, b => .cons k v (tl.append b)

/-- Extract a string payload from a wire value, if it is a string. -/
def JValue.asStr : JValue → Option String
  | .str s => some s
  | _ => none

/-- Read a wire value as an integer: a number directly, or a decimal
string coerced the way the source coerces defaultTableExpirationMs. -/
def JValue.toIntCoerce : JValue → Option Int
  | .num n => some n
  | .str s => s.toInt?
  | _ => none

/-- Error taxonomy of spec.md section 7: InvalidArgument (ValueError),
KeyNotFound (KeyError), NotFound from the collaborator, and any other
collaborator error, kept opaque. -/
inductive DsError where
  | invalidArgument
  | keyNotFound
  | notFound
  | clientError (msg : String)
deriving DecidableEq, Repr

/-- Recognized entity-type tokens for an access grant. -/
def ENTITY_TYPES : List String :=
  ["userByEmail", "groupByEmail", "domain", "specialGroup", "view"]

/-- Modelled from the spec: an AccessEntry stores a nullable role, an
entity-type token and an opaque entity id verbatim (dataset.py is not in
the examined sources; spec.md section 3 and 4.1 describe the type). -/
structure AccessEntry where
  role : Option JValue
  entity_type : String
  entity_id : JValue
deriving DecidableEq, Repr

/-- Modelled from the spec: the AccessEntry construction contract of
spec.md section 4.1 — InvalidArgument when the entity type is not
recognized, when a view entry has a non-null role, or when a non-view
entry has a null role; on success the three inputs are stored verbatim. -/
def AccessEntry.make (role : Option JValue) (entity_type : String)
    (entity_id : JValue) : Except DsError AccessEntry :=
  if entity_type ∈ ENTITY_TYPES then
    if entity_type = "view" then
      if role.isSome then .error .invalidArgument
      else .ok ⟨role, entity_type, entity_id⟩
    else
      if role.isNone then .error .invalidArgument
      else .ok ⟨role, entity_type, entity_id⟩
  else .error .invalidArgument

/-- Modelled from the spec: re-flatten one AccessEntry to its wire form,
a record holding the optional role and one entityType to entityId
binding (spec.md section 4.2, serialization of the access list). -/
def AccessEntry.toApiRepr (e : AccessEntry) : JObj :=
  match e.role with
  | some r => .cons "role" r (.cons e.entity_type e.entity_id .nil)
  | none => .cons e.entity_type e.entity_id .nil

/-- Modelled from the spec: parse one raw access record — pop the
optional role, require exactly one remaining key, and hand the triple to
the AccessEntry construction contract (spec.md section 4.2). -/
def Dataset.parseAccessEntry (record : JObj) : Except DsError AccessEntry :=
  let role := record.lookup "role"
  match record.erase "role" with
  | .cons et eid .nil => AccessEntry.make role et eid
  | _ => .error .invalidArgument

/-- Modelled from the spec: parse a sequence of raw access records,
one AccessEntry per record, stopping at the first invalid record
(spec.md section 4.2). -/
def Dataset.parseAccessEntries : List JObj → Except DsError (List AccessEntry)
  | [] => .ok []
  | r :: rest =>
    match Dataset.parseAccessEntry r with
    | .error e => .error e
    | .ok entry =>
      match Dataset.parseAccessEntries rest with
      | .error e => .error e
      | .ok entries => .ok (entry :: entries)

/-- Runtime values an AccessEntry can be compared against: another
AccessEntry, a plain featureless object (identified by an id, equality
by identity only), or the test suite's match-anything sentinel
(mock.ANY), whose own comparison reports equality with everything. -/
inductive PyValue where
  | entry (e : AccessEntry)
  | plainObject (id : Nat)
  | anyMock
deriving DecidableEq, Repr

/-- Modelled from the spec and the unit test test__eq___type_mismatch:
the comparison method of AccessEntry compares (role, entity_type,
entity_id) structurally against another AccessEntry and declines to
decide (NotImplemented, here none) for any other operand — the test
asserts both inequality with a plain object and equality with the
match-anything sentinel, which holds only if the method defers. -/
def AccessEntry.eqMethod (a : AccessEntry) : PyValue → Option Bool
  | .entry b =>
    some (decide (a.role = b.role ∧ a.entity_type = b.entity_type ∧
      a.entity_id = b.entity_id))
  | _ => none

/-- Comparison method of each runtime value against another: an
AccessEntry defers off-type, the match-anything sentinel always reports
equality, a plain object has no comparison method of its own. -/
def PyValue.eqMethodOf : PyValue → PyValue → Option Bool
  | .entry a, other => a.eqMethod other
  | .anyMock, _ => some true
  | .plainObject _, _ => none

/-- Identity fallback used when neither operand decides the comparison:
two plain objects are identical exactly when they are the same object. -/
def pyIdentity : PyValue → PyValue → Bool
  | .plainObject i, .plainObject j => decide (i = j)
  | _, _ => false

/-- Runtime equality dispatch: ask the left operand, then the reflected
right operand, then fall back to identity. Never raises (total). -/
def pyEq (a b : PyValue) : Bool :=
  match PyValue.eqMethodOf a b with
  | some r => r
  | none =>
    match PyValue.eqMethodOf b a with
    | some r => r
    | none => pyIdentity a b

/-- Absolute UTC instant, measured in microseconds since the Unix
epoch, the precision the source converts wire timestamps to. -/
structure UtcTime where
  micros : Int
deriving DecidableEq, Repr

/-- Build a UTC instant from microseconds since the epoch. -/
def datetimeFromMicroseconds (us : Int) : UtcTime := ⟨us⟩

/-- Convert a wire epoch-milliseconds timestamp to the corresponding
absolute UTC instant. -/
def utcOfEpochMs (ms : Int) : UtcTime := datetimeFromMicroseconds (ms * 1000)

/-- Modelled from the spec: the local state of a DatasetResource —
identity, mutable fields and server-assigned read-only fields (spec.md
section 3; dataset.py is not in the examined sources). -/
structure Dataset where
  dataset_id : String
  project : String
  access_entries : List AccessEntry := []
  created : Option UtcTime := none
  full_dataset_id : Option String := none
  etag : Option String := none
  modified : Option UtcTime := none
  self_link : Option String := none
  default_table_expiration_ms : Option Int := none
  description : Option String := none
  friendly_name : Option String := none
  location : Option String := none
deriving DecidableEq, Repr

/-- Derived resource path of a dataset. -/
def Dataset.path (ds : Dataset) : String :=
  "/projects/" ++ ds.project ++ "/datasets/" ++ ds.dataset_id

/-- Require every element of a wire list to be an object (an access
list holds record-shaped entries only). -/
def recordsOf : List JValue → Except DsError (List JObj)
  | [] => .ok []
  | .obj o :: rest =>
    match recordsOf rest with
    | .error e => .error e
    | .ok os => .ok (o :: os)
  | _ :: _ => .error .invalidArgument

/-- Modelled from the spec: the access-entry collection a canonical
representation carries — parsed from the access list when present,
empty otherwise (spec.md section 4.2). -/
def Dataset.accessFrom (resource : JObj) : Except DsError (List AccessEntry) :=
  match resource.lookup "access" with
  | none => .ok []
  | some (.arr xs) =>
    match recordsOf xs.toList with
    | .error e => .error e
    | .ok records => Dataset.parseAccessEntries records
  | some _ => .error .invalidArgument

/-- Modelled from the spec: wholesale replacement of local state from a
canonical server representation — every absent optional field becomes
null, timestamps convert from epoch milliseconds to UTC instants, and
the access list is parsed into access entries (spec.md section 4.2). -/
def Dataset.setProperties (ds : Dataset) (resource : JObj) :
    Except DsError Dataset :=
  match Dataset.accessFrom resource with
  | .error e => .error e
  | .ok entries =>
    .ok { ds with
      access_entries := entries
      created :=
        ((resource.lookup "creationTime").bind JValue.toIntCoerce).map utcOfEpochMs
      modified :=
        ((resource.lookup "lastModifiedTime").bind JValue.toIntCoerce).map utcOfEpochMs
      etag := (resource.lookup "etag").bind JValue.asStr
      full_dataset_id := (resource.lookup "id").bind JValue.asStr
      self_link := (resource.lookup "selfLink").bind JValue.asStr
      default_table_expiration_ms :=
        (resource.lookup "defaultTableExpirationMs").bind JValue.toIntCoerce
      description := (resource.lookup "description").bind JValue.asStr
      friendly_name := (resource.lookup "friendlyName").bind JValue.asStr
      location := (resource.lookup "location").bind JValue.asStr }

/-- Modelled from the spec: building a DatasetResource from a canonical
server representation requires the nested identity block to carry
projectId and datasetId, failing with KeyNotFound otherwise; identity
is taken from the block and all the other fields go through the
wholesale state replacement (spec.md section 4.2). -/
def Dataset.from_api_repr (resource : JObj) : Except DsError Dataset :=
  match resource.lookup "datasetReference" with
  | some (.obj ref) =>
    match ref.lookup "projectId", ref.lookup "datasetId" with
    | some (.str proj), some (.str dsid) =>
      Dataset.setProperties { dataset_id := dsid, project := proj } resource
    | _, _ => .error .keyNotFound
  | _ => .error .keyNotFound

/-- One optional wire field: a single binding when set, nothing when
unset (sparse payload). -/
def optField (k : String) : Option JValue → JObj
  | some v => .cons k v .nil
  | none => .nil

/-- Flatten a list of access entries to the wire access list. -/
def buildAccess : List AccessEntry → JList
  | [] => .nil
  | e :: es => .cons (.obj e.toApiRepr) (buildAccess es)

/-- Modelled from the spec: the creation representation — the mandatory
identity block plus only the locally set optional fields, never a
null-valued key for an unset field; the access list is included only
when entries are present (spec.md section 4.2). -/
def Dataset.buildResource (ds : Dataset) : JObj :=
  JObj.append
    (.cons "datasetReference"
      (.obj (.cons "projectId" (.str ds.project)
        (.cons "datasetId" (.str ds.dataset_id) .nil))) .nil)
    (JObj.append (optField "description" (ds.description.map .str))
      (JObj.append (optField "friendlyName" (ds.friendly_name.map .str))
        (JObj.append (optField "location" (ds.location.map .str))
          (JObj.append
            (optField "defaultTableExpirationMs"
              (ds.default_table_expiration_ms.map .num))
            (match ds.access_entries with
             | [] => .nil
             | es => .cons "access" (.arr (buildAccess es)) .nil)))))

/-- One request handed to the client collaborator. -/
structure Request where
  method : String
  path : String
  query_params : JObj
  data : Option JValue
deriving DecidableEq, Repr

/-- The client collaborator, modelled as in the unit tests: a script of
outcomes consumed one per request (an exhausted script answers
NotFound, as the test double does) plus the log of issued requests. -/
structure Conn where
  responses : List (Except DsError JObj)
  requested : List Request
deriving Repr

/-- Issue one request: log it and consume the next scripted outcome. -/
def Conn.apiRequest (c : Conn) (req : Request) :
    Except DsError JObj × Conn :=
  match c.responses with
  | [] => (.error .notFound, ⟨[], c.requested ++ [req]⟩)
  | r :: rest => (r, ⟨rest, c.requested ++ [req]⟩)

/-- Modelled from the spec: create issues one POST of the creation
representation to the dataset collection path and replaces local state
wholesale from the response (spec.md section 4.2 and the lifecycle
table of section 4.2). -/
def Dataset.create (ds : Dataset) (conn : Conn) :
    Except DsError Dataset × Conn :=
  let req : Request :=
    ⟨"POST", "/projects/" ++ ds.project ++ "/datasets", .nil,
      some (.obj ds.buildResource)⟩
  let rc := conn.apiRequest req
  (match rc.1 with
   | .error e => .error e
   | .ok resp => ds.setProperties resp,
   rc.2)

/-- Modelled from the spec: the existence check issues one GET of the
dataset path asking for the id field only, downgrades NotFound to
false, reports true on any parsed response, and propagates every other
collaborator error unchanged (spec.md sections 4.2 and 7). -/
def Dataset.existsCheck (ds : Dataset) (conn : Conn) :
    Except DsError Bool × Conn :=
  let req : Request := ⟨"GET", ds.path, .cons "fields" (.str "id") .nil, none⟩
  let rc := conn.apiRequest req
  (match rc.1 with
   | .error .notFound => .ok false
   | .error e => .error e
   | .ok _ => .ok true,
   rc.2)

/-- Partial-update overrides: each field is independently optional;
a provided value is validated by the corresponding setter rule. -/
structure PatchOverrides where
  default_table_expiration_ms : Option JValue := none
  description : Option JValue := none
  friendly_name : Option JValue := none
  location : Option JValue := none
deriving DecidableEq, Repr

/-- Setter validation for the expiration field: integer or null. -/
def validIntOrNull : JValue → Bool
  | .num _ => true
  | .null => true
  | _ => false

/-- Setter validation for the string fields: string or null. -/
def validStrOrNull : JValue → Bool
  | .str _ => true
  | .null => true
  | _ => false

/-- One provided override, validated and serialized as a single wire
binding; an absent override contributes nothing. -/
def checkedField (valid : JValue → Bool) (k : String) :
    Option JValue → Except DsError JObj
  | none => .ok .nil
  | some v => if valid v then .ok (.cons k v .nil) else .error .invalidArgument

/-- Modelled from the spec: the partial-update representation holds
exactly the provided overrides, each passing its setter validation
(spec.md section 4.2). -/
def Dataset.buildPartial (ov : PatchOverrides) : Except DsError JObj :=
  match checkedField validIntOrNull "defaultTableExpirationMs"
      ov.default_table_expiration_ms with
  | .error e => .error e
  | .ok f1 =>
    match checkedField validStrOrNull "description" ov.description with
    | .error e => .error e
    | .ok f2 =>
      match checkedField validStrOrNull "friendlyName" ov.friendly_name with
      | .error e => .error e
      | .ok f3 =>
        match checkedField validStrOrNull "location" ov.location with
        | .error e => .error e
        | .ok f4 => .ok (f1.append (f2.append (f3.append f4)))

/-- Modelled from the spec: patch validates the overrides first —
failing fast with no request issued and no state change — then issues
one PATCH of exactly the serialized overrides and replaces local state
wholesale from the response (spec.md sections 4.2 and 7). -/
def Dataset.patch (ds : Dataset) (ov : PatchOverrides) (conn : Conn) :
    Except DsError Dataset × Conn :=
  match Dataset.buildPartial ov with
  | .error e => (.error e, conn)
  | .ok body =>
    let req : Request := ⟨"PATCH", ds.path, .nil, some (.obj body)⟩
    let rc := conn.apiRequest req
    (match rc.1 with
     | .error e => .error e
     | .ok resp => ds.setProperties resp,
     rc.2)

/-- Query parameters of a table listing: maxResults and pageToken,
each attached only when provided. -/
def Dataset.listTablesQuery (max_results : Option Int)
    (page_token : Option String) : JObj :=
  JObj.append (optField "maxResults" (max_results.map .num))
    (optField "pageToken" (page_token.map .str))

/-- Modelled from the spec: one page fetch of the table listing —
a GET of the tables path with the optional paging query parameters,
yielding the item array of the response (empty when absent) and the
next-page token (null when absent) (spec.md sections 4.2 and 4.3). -/
def Dataset.list_tables (ds : Dataset) (max_results : Option Int)
    (page_token : Option String) (conn : Conn) :
    Except DsError (List JValue × Option String) × Conn :=
  let req : Request :=
    ⟨"GET", ds.path ++ "/tables",
      Dataset.listTablesQuery max_results page_token, none⟩
  let rc := conn.apiRequest req
  (match rc.1 with
   | .error e => .error e
   | .ok resp =>
     .ok
       (match resp.lookup "tables" with
        | some (.arr xs) => xs.toList
        | _ => [],
        match resp.lookup "nextPageToken" with
        | some (.str t) => some t
        | _ => none),
   rc.2)

/-- Concrete dataset fixture mirroring the unit tests: identity only,
all optional fields unset. -/
def dsFixture : Dataset :=
  ⟨"dataset-id", "project", [], none, none, none, none, none, none, none,
    none, none⟩

example : AccessEntry.make (some (.str "OWNER")) "userByEmail" (.str "phred@example.com")
    = .ok ⟨some (.str "OWNER"), "userByEmail", .str "phred@example.com"⟩ := rfl

example : AccessEntry.make none "unknown" .null = .error .invalidArgument := rfl

example : AccessEntry.make (some (.str "READER")) "view" .null = .error .invalidArgument := rfl

example : AccessEntry.make none "userByEmail" .null = .error .invalidArgument := rfl

/-- C1: AccessEntry construction fails with InvalidArgument for every
unrecognized entity type, for a view entry with a non-null role, and
for a non-view recognized entity type with a null role; on every
successful construction the three inputs are stored verbatim. -/
theorem accessEntry_ctor_spec :
    (∀ (role : Option JValue) (et : String) (eid : JValue),
      et ∉ ENTITY_TYPES → AccessEntry.make role et eid = .error .invalidArgument) ∧
    (∀ (r : JValue) (eid : JValue),
      AccessEntry.make (some r) "view" eid = .error .invalidArgument) ∧
    (∀ (et : String) (eid : JValue), et ∈ ENTITY_TYPES → et ≠ "view" →
      AccessEntry.make none et eid = .error .invalidArgument) ∧
    (∀ (role : Option JValue) (et : String) (eid : JValue) (e : AccessEntry),
      AccessEntry.make role et eid = .ok e →
      e.role = role ∧ e.entity_type = et ∧ e.entity_id = eid) := by
  refine ⟨?_, ?_, ?_, ?_⟩
  · intro role et eid h
    simp [AccessEntry.make, h]
  · intro r eid
    simp [AccessEntry.make, ENTITY_TYPES]
  · intro et eid hmem hne
    simp [AccessEntry.make, hmem, hne]
  · intro role et eid e h
    unfold AccessEntry.make at h
    split_ifs at h <;> simp_all <;> (cases h; exact ⟨rfl, rfl, rfl⟩)

/-- Witness for C1 at concrete inputs drawn from the unit tests. -/
theorem accessEntry_ctor_spec_witness :
    AccessEntry.make none "unknown" .null = .error .invalidArgument ∧
    AccessEntry.make (some (.str "READER")) "view" .null = .error .invalidArgument ∧
    AccessEntry.make none "userByEmail" .null = .error .invalidArgument ∧
    ((⟨some (.str "OWNER"), "userByEmail", .str "phred@example.com"⟩ : AccessEntry).role
        = some (.str "OWNER") ∧
      (⟨some (.str "OWNER"), "userByEmail", .str "phred@example.com"⟩ : AccessEntry).entity_type
        = "userByEmail" ∧
      (⟨some (.str "OWNER"), "userByEmail", .str "phred@example.com"⟩ : AccessEntry).entity_id
        = .str "phred@example.com") :=
  ⟨accessEntry_ctor_spec.1 none "unknown" .null (by decide),
   accessEntry_ctor_spec.2.1 (.str "READER") .null,
   accessEntry_ctor_spec.2.2.1 "userByEmail" .null (by decide) (by decide),
   accessEntry_ctor_spec.2.2.2 (some (.str "OWNER")) "userByEmail"
     (.str "phred@example.com") _ rfl⟩

/-- C4: parsing the raw access list with the single record
(role OWNER, userByEmail phred@example.com) yields exactly that one
AccessEntry, and re-flattening it reproduces the identical raw record. -/
theorem roundtrip_owner_userByEmail :
    Dataset.parseAccessEntries
        [JObj.cons "role" (.str "OWNER")
          (.cons "userByEmail" (.str "phred@example.com") .nil)] =
      .ok [⟨some (.str "OWNER"), "userByEmail", .str "phred@example.com"⟩] ∧
    AccessEntry.toApiRepr
        ⟨some (.str "OWNER"), "userByEmail", .str "phred@example.com"⟩ =
      JObj.cons "role" (.str "OWNER")
        (.cons "userByEmail" (.str "phred@example.com") .nil) :=
  ⟨rfl, rfl⟩

/-- Helper: the construction contract only ever fails with
InvalidArgument. -/
theorem AccessEntry.make_error_invalid (role : Option JValue) (et : String)
    (eid : JValue) (err : DsError)
    (h : AccessEntry.make role et eid = .error err) : err = .invalidArgument := by
  unfold AccessEntry.make at h
  split_ifs at h <;> simp_all

/-- Helper: parsing one access record only ever fails with
InvalidArgument. -/
theorem parseAccessEntry_error_invalid (r : JObj) (err : DsError)
    (h : Dataset.parseAccessEntry r = .error err) : err = .invalidArgument := by
  unfold Dataset.parseAccessEntry at h
  split at h
  · exact AccessEntry.make_error_invalid _ _ _ _ h
  · simp_all

/-- C2: parsing raw access records pops the optional role and fails with
InvalidArgument when zero non-role keys remain, when more than one
remains, or when the single remaining key is not a recognized entity
type; a failing record anywhere in the sequence fails the whole parse
with InvalidArgument; a successful parse yields exactly one AccessEntry
per record, in input order. -/
theorem parse_access_entries_spec :
    (∀ record : JObj, record.erase "role" = .nil →
      Dataset.parseAccessEntry record = .error .invalidArgument) ∧
    (∀ (record : JObj) (k : String) (v : JValue) (k2 : String) (v2 : JValue)
        (rest : JObj),
      record.erase "role" = .cons k v (.cons k2 v2 rest) →
      Dataset.parseAccessEntry record = .error .invalidArgument) ∧
    (∀ (record : JObj) (et : String) (eid : JValue),
      record.erase "role" = .cons et eid .nil → et ∉ ENTITY_TYPES →
      Dataset.parseAccessEntry record = .error .invalidArgument) ∧
    (∀ (l : List JObj) (r : JObj) (err : DsError), r ∈ l →
      Dataset.parseAccessEntry r = .error err →
      Dataset.parseAccessEntries l = .error .invalidArgument) ∧
    (∀ (l : List JObj) (res : List AccessEntry),
      Dataset.parseAccessEntries l = .ok res →
      res.length = l.length ∧
      ∀ (i : Nat) (hi : i < l.length) (hj : i < res.length),
        Dataset.parseAccessEntry (l.get ⟨i, hi⟩) = .ok (res.get ⟨i, hj⟩)) := by
  refine ⟨?_, ?_, ?_, ?_, ?_⟩
  · intro record h
    simp [Dataset.parseAccessEntry, h]
  · intro record k v k2 v2 rest h
    simp [Dataset.parseAccessEntry, h]
  · intro record et eid h hmem
    simp [Dataset.parseAccessEntry, h, AccessEntry.make, hmem]
  · intro l
    induction l with
    | nil => intro r err hr _; cases hr
    | cons hd tl ih =>
      intro r err hr herr
      rcases List.mem_cons.mp hr with h1 | h1
      · subst h1
        have he := parseAccessEntry_error_invalid r err herr
        subst he
        simp [Dataset.parseAccessEntries, herr]
      · cases hh : Dataset.parseAccessEntry hd with
        | error e =>
          have he := parseAccessEntry_error_invalid hd e hh
          subst he
          simp [Dataset.parseAccessEntries, hh]
        | ok entry =>
          have htl := ih r err h1 herr
          simp [Dataset.parseAccessEntries, hh, htl]
  · intro l
    induction l with
    | nil =>
      intro res h
      simp [Dataset.parseAccessEntries] at h
      subst h
      exact ⟨rfl, fun i hi _ => absurd hi (Nat.not_lt_zero i)⟩
    | cons hd tl ih =>
      intro res h
      cases hh : Dataset.parseAccessEntry hd with
      | error e => simp [Dataset.parseAccessEntries, hh] at h
      | ok entry =>
        cases htl : Dataset.parseAccessEntries tl with
        | error e => simp [Dataset.parseAccessEntries, hh, htl] at h
        | ok entries =>
          simp [Dataset.parseAccessEntries, hh, htl] at h
          subst h
          obtain ⟨hlen, hidx⟩ := ih entries htl
          refine ⟨by simp [hlen], ?_⟩
          intro i hi hj
          cases i with
          | zero => simpa using hh
          | succ n =>
            exact hidx n (by simpa using hi) (by simpa using hj)

/-- Witness for C2 at the concrete records of the unit tests. -/
theorem parse_access_entries_spec_witness :
    Dataset.parseAccessEntry (JObj.cons "role" (.str "READER") .nil) =
      .error .invalidArgument ∧
    Dataset.parseAccessEntry
        (JObj.cons "role" (.str "READER")
          (.cons "specialGroup" (.str "projectReaders")
            (.cons "userByEmail" (.str "phred@example.com") .nil))) =
      .error .invalidArgument ∧
    Dataset.parseAccessEntry
        (JObj.cons "role" (.str "READER")
          (.cons "unknown" (.str "UNKNOWN") .nil)) =
      .error .invalidArgument ∧
    Dataset.parseAccessEntries
        [JObj.cons "role" (.str "READER")
          (.cons "unknown" (.str "UNKNOWN") .nil)] =
      .error .invalidArgument ∧
    ([(⟨some (.str "OWNER"), "userByEmail", .str "phred@example.com"⟩ : AccessEntry)].length
        = [JObj.cons "role" (.str "OWNER")
            (.cons "userByEmail" (.str "phred@example.com") .nil)].length) :=
  ⟨parse_access_entries_spec.1 (JObj.cons "role" (.str "READER") .nil) rfl,
   parse_access_entries_spec.2.1
     (JObj.cons "role" (.str "READER")
       (.cons "specialGroup" (.str "projectReaders")
         (.cons "userByEmail" (.str "phred@example.com") .nil)))
     "specialGroup" (.str "projectReaders") "userByEmail"
     (.str "phred@example.com") .nil rfl,
   parse_access_entries_spec.2.2.1
     (JObj.cons "role" (.str "READER") (.cons "unknown" (.str "UNKNOWN") .nil))
     "unknown" (.str "UNKNOWN") rfl (by decide),
   parse_access_entries_spec.2.2.2.1
     [JObj.cons "role" (.str "READER") (.cons "unknown" (.str "UNKNOWN") .nil)]
     (JObj.cons "role" (.str "READER") (.cons "unknown" (.str "UNKNOWN") .nil))
     .invalidArgument (List.mem_singleton.mpr rfl) rfl,
   (parse_access_entries_spec.2.2.2.2
     [JObj.cons "role" (.str "OWNER")
       (.cons "userByEmail" (.str "phred@example.com") .nil)]
     [⟨some (.str "OWNER"), "userByEmail", .str "phred@example.com"⟩] rfl).1⟩

/-- C3 counterexample: the unit test asserts equality between an
AccessEntry and the non-AccessEntry match-anything sentinel (mock.ANY),
so comparing an AccessEntry against a non-AccessEntry does not always
report inequality. -/
theorem accessEntry_eq_anyMock_counterexample :
    pyEq
      (.entry ⟨some (.str "OWNER"), "userByEmail", .str "silly@example.com"⟩)
      .anyMock = true := rfl

/-- C3 amended: two AccessEntry values compare equal iff role,
entity_type and entity_id are pairwise equal; the comparison never
raises (it is total); the AccessEntry comparison method itself never
decides a comparison against a non-AccessEntry (it defers to the other
operand), so a plain object compares not-equal, while an operand whose
own comparison claims equality with everything compares equal. -/
theorem accessEntry_equality_spec :
    (∀ a b : AccessEntry,
      pyEq (.entry a) (.entry b) = true ↔
        (a.role = b.role ∧ a.entity_type = b.entity_type ∧
          a.entity_id = b.entity_id)) ∧
    (∀ (a : AccessEntry) (x : PyValue),
      (∀ b : AccessEntry, x ≠ .entry b) → a.eqMethod x = none) ∧
    (∀ (a : AccessEntry) (i : Nat),
      pyEq (.entry a) (.plainObject i) = false) ∧
    (∀ a : AccessEntry, pyEq (.entry a) .anyMock = true) := by
  refine ⟨?_, ?_, ?_, ?_⟩
  · intro a b
    simp [pyEq, PyValue.eqMethodOf, AccessEntry.eqMethod]
  · intro a x hx
    cases x with
    | entry b => exact absurd rfl (hx b)
    | plainObject i => rfl
    | anyMock => rfl
  · intro a i
    rfl
  · intro a
    rfl

/-- Witness for C3 amended at the concrete values of the unit tests. -/
theorem accessEntry_equality_spec_witness :
    (pyEq
        (.entry ⟨some (.str "OWNER"), "userByEmail", .str "phred@example.com"⟩)
        (.entry ⟨some (.str "WRITER"), "userByEmail", .str "phred@example.com"⟩)
      = true ↔
      ((some (.str "OWNER") : Option JValue) = some (.str "WRITER") ∧
        ("userByEmail" : String) = "userByEmail" ∧
        (JValue.str "phred@example.com") = .str "phred@example.com")) ∧
    AccessEntry.eqMethod
        ⟨some (.str "OWNER"), "userByEmail", .str "silly@example.com"⟩
        (.plainObject 0) = none ∧
    pyEq
        (.entry ⟨some (.str "OWNER"), "userByEmail", .str "silly@example.com"⟩)
        (.plainObject 0) = false ∧
    pyEq
        (.entry ⟨some (.str "OWNER"), "userByEmail", .str "silly@example.com"⟩)
        .anyMock = true :=
  ⟨accessEntry_equality_spec.1
      ⟨some (.str "OWNER"), "userByEmail", .str "phred@example.com"⟩
      ⟨some (.str "WRITER"), "userByEmail", .str "phred@example.com"⟩,
   accessEntry_equality_spec.2.1
      ⟨some (.str "OWNER"), "userByEmail", .str "silly@example.com"⟩
      (.plainObject 0) (fun b h => by cases h),
   accessEntry_equality_spec.2.2.1
      ⟨some (.str "OWNER"), "userByEmail", .str "silly@example.com"⟩ 0,
   accessEntry_equality_spec.2.2.2
      ⟨some (.str "OWNER"), "userByEmail", .str "silly@example.com"⟩⟩

/-- C10: flattening an access entry to wire form emits a one-key record
when the role is null and the two-key record (role, entityType) form
when the role is present. -/
theorem accessEntry_flatten_spec :
    (∀ (et : String) (eid : JValue),
      AccessEntry.toApiRepr ⟨none, et, eid⟩ = .cons et eid .nil) ∧
    (∀ (r : JValue) (et : String) (eid : JValue),
      AccessEntry.toApiRepr ⟨some r, et, eid⟩ =
        .cons "role" r (.cons et eid .nil)) :=
  ⟨fun _ _ => rfl, fun _ _ _ => rfl⟩

/-- Helper: one issued request appends itself to the request log. -/
theorem Conn.apiRequest_requested (c : Conn) (req : Request) :
    ((c.apiRequest req).2).requested = c.requested ++ [req] := by
  unfold Conn.apiRequest
  cases c.responses <;> rfl

/-- Helper: looking a key up in a concatenation tries the left part
first. -/
theorem JObj.lookup_append (a b : JObj) (k : String) :
    (a.append b).lookup k =
      match a.lookup k with
      | some v => some v
      | none => b.lookup k := by
  match a with
  | .nil => rfl
  | .cons k2 v tl =>
    by_cases h : k2 = k <;>
      simp [JObj.append, JObj.lookup, h, JObj.lookup_append tl b k]

/-- Helper: keys of a concatenation. -/
theorem JObj.keys_append (a b : JObj) :
    (a.append b).keys = a.keys ++ b.keys := by
  match a with
  | .nil => rfl
  | .cons k v tl => simp [JObj.append, JObj.keys, JObj.keys_append tl b]

/-- Helper: an optional field resolves to its own value. -/
theorem optField_lookup_self (k : String) (v : Option JValue) :
    (optField k v).lookup k = v := by
  cases v <;> simp [optField, JObj.lookup]

/-- Helper: an optional field holds no other key. -/
theorem optField_lookup_ne (k k2 : String) (v : Option JValue)
    (h : ¬ k = k2) : (optField k v).lookup k2 = none := by
  cases v <;> simp [optField, JObj.lookup, h]

/-- Helper: an optional field contributes at most its own key. -/
theorem optField_keys (k : String) (v : Option JValue) :
    (optField k v).keys ⊆ [k] := by
  cases v <;> simp [optField, JObj.keys]

/-- C5: building a dataset from a canonical representation fails with
KeyNotFound when the identity block or its projectId or datasetId is
absent — in particular on the empty representation — and when identity
is present every absent optional field maps to null while a present
epoch-milliseconds creationTime or lastModifiedTime maps to the
corresponding UTC instant. -/
theorem from_api_repr_spec :
    Dataset.from_api_repr .nil = .error .keyNotFound ∧
    (∀ resource : JObj, resource.lookup "datasetReference" = none →
      Dataset.from_api_repr resource = .error .keyNotFound) ∧
    (∀ (resource ref : JObj),
      resource.lookup "datasetReference" = some (.obj ref) →
      (ref.lookup "projectId" = none ∨ ref.lookup "datasetId" = none) →
      Dataset.from_api_repr resource = .error .keyNotFound) ∧
    (∀ (resource : JObj) (ds : Dataset),
      Dataset.from_api_repr resource = .ok ds →
      (resource.lookup "creationTime" = none → ds.created = none) ∧
      (∀ ms : Int, resource.lookup "creationTime" = some (.num ms) →
        ds.created = some (utcOfEpochMs ms)) ∧
      (∀ ms : Int, resource.lookup "lastModifiedTime" = some (.num ms) →
        ds.modified = some (utcOfEpochMs ms)) ∧
      (resource.lookup "lastModifiedTime" = none → ds.modified = none) ∧
      (resource.lookup "etag" = none → ds.etag = none) ∧
      (resource.lookup "selfLink" = none → ds.self_link = none) ∧
      (resource.lookup "id" = none → ds.full_dataset_id = none) ∧
      (resource.lookup "description" = none → ds.description = none) ∧
      (resource.lookup "friendlyName" = none → ds.friendly_name = none) ∧
      (resource.lookup "location" = none → ds.location = none) ∧
      (resource.lookup "defaultTableExpirationMs" = none →
        ds.default_table_expiration_ms = none) ∧
      (resource.lookup "access" = none → ds.access_entries = [])) := by
  refine ⟨rfl, ?_, ?_, ?_⟩
  · intro resource h
    simp [Dataset.from_api_repr, h]
  · intro resource ref heq h2
    unfold Dataset.from_api_repr
    rw [heq]
    rcases h2 with hp | hd
    · simp [hp]
    · rcases hv : ref.lookup "projectId" with _ | v
      · simp [hv]
      · cases v <;> simp [hv, hd]
  · intro resource ds h
    unfold Dataset.from_api_repr at h
    split at h
    case _ ref heq =>
      split at h
      case _ proj dsid hp hd =>
        unfold Dataset.setProperties at h
        split at h
        case _ e hacc => simp at h
        case _ entries hacc =>
          simp only [Except.ok.injEq] at h
          subst h
          refine ⟨?_, ?_, ?_, ?_, ?_, ?_, ?_, ?_, ?_, ?_, ?_, ?_⟩
          · intro hl; simp [hl]
          · intro ms hl; simp [hl, JValue.toIntCoerce]
          · intro ms hl; simp [hl, JValue.toIntCoerce]
          · intro hl; simp [hl]
          · intro hl; simp [hl]
          · intro hl; simp [hl]
          · intro hl; simp [hl]
          · intro hl; simp [hl]
          · intro hl; simp [hl]
          · intro hl; simp [hl]
          · intro hl; simp [hl]
          · intro hl
            unfold Dataset.accessFrom at hacc
            rw [hl] at hacc
            simp at hacc
            simp [hacc]
      case _ hne => simp at h
    case _ hne => simp at h

/-- Witness for C5 at the concrete representations of the unit tests:
an identity-only representation parses with a null created field, and a
representation whose identity block lacks projectId fails. -/
theorem from_api_repr_spec_witness :
    Dataset.from_api_repr
        (JObj.cons "datasetReference"
          (.obj (.cons "projectId" (.str "project")
            (.cons "datasetId" (.str "dataset-id") .nil))) .nil) =
      .ok dsFixture ∧
    dsFixture.created = none ∧
    Dataset.from_api_repr (JObj.cons "datasetReference" (.obj .nil) .nil) =
      .error .keyNotFound :=
  ⟨rfl,
   (from_api_repr_spec.2.2.2
       (JObj.cons "datasetReference"
         (.obj (.cons "projectId" (.str "project")
           (.cons "datasetId" (.str "dataset-id") .nil))) .nil)
       dsFixture rfl).1 rfl,
   from_api_repr_spec.2.2.1 (JObj.cons "datasetReference" (.obj .nil) .nil)
     .nil rfl (Or.inl rfl)⟩

/-- C6: create issues a POST to the dataset collection path whose body
is the sparse creation representation: the identity block plus exactly
the locally set optional fields — an unset optional field contributes
no key at all — and nothing else. -/
theorem create_sends_sparse_body (ds : Dataset) (conn : Conn) :
    (ds.create conn).2.requested =
      conn.requested ++
        [⟨"POST", "/projects/" ++ ds.project ++ "/datasets", .nil,
          some (.obj ds.buildResource)⟩] ∧
    ds.buildResource.lookup "datasetReference" =
      some (.obj (.cons "projectId" (.str ds.project)
        (.cons "datasetId" (.str ds.dataset_id) .nil))) ∧
    ds.buildResource.lookup "description" = ds.description.map .str ∧
    ds.buildResource.lookup "friendlyName" = ds.friendly_name.map .str ∧
    ds.buildResource.lookup "location" = ds.location.map .str ∧
    ds.buildResource.lookup "defaultTableExpirationMs" =
      ds.default_table_expiration_ms.map .num ∧
    ds.buildResource.lookup "access" =
      (match ds.access_entries with
       | [] => none
       | es => some (.arr (buildAccess es))) ∧
    (∀ k, k ∈ ds.buildResource.keys →
      k ∈ ["datasetReference", "description", "friendlyName", "location",
        "defaultTableExpirationMs", "access"]) := by
  refine ⟨Conn.apiRequest_requested conn _, ?_⟩
  obtain ⟨did, proj, ae, cr, fid, etg, mo, sl, dte, de, fn, lo⟩ := ds
  cases dte <;> cases de <;> cases fn <;> cases lo <;> cases ae <;>
    simp [Dataset.buildResource, JObj.lookup_append, JObj.lookup,
      JObj.keys_append, JObj.keys, optField, JObj.append, buildAccess]

/-- Witness for C6 at the identity-only fixture: the sparse body of its
create request carries the identity block and nothing else. -/
theorem create_sends_sparse_body_witness :
    (dsFixture.create ⟨[], []⟩).2.requested =
      [⟨"POST", "/projects/" ++ "project" ++ "/datasets", .nil,
        some (.obj dsFixture.buildResource)⟩] ∧
    dsFixture.buildResource.lookup "description" = none ∧
    ("datasetReference" ∈ dsFixture.buildResource.keys →
      "datasetReference" ∈
        ["datasetReference", "description", "friendlyName", "location",
          "defaultTableExpirationMs", "access"]) :=
  ⟨(create_sends_sparse_body dsFixture ⟨[], []⟩).1,
   (create_sends_sparse_body dsFixture ⟨[], []⟩).2.2.1,
   (create_sends_sparse_body dsFixture ⟨[], []⟩).2.2.2.2.2.2.2
     "datasetReference"⟩

/-- C7: patch with expiration and location overrides sends exactly
those two serialized fields and no other, whatever else is locally set;
an override failing its setter validation makes patch fail with
InvalidArgument while the connection is left untouched — no request is
issued and no state is replaced. -/
theorem patch_spec :
    (∀ (ds : Dataset) (conn : Conn) (x : Int) (y : String),
      Dataset.buildPartial ⟨some (.num x), none, none, some (.str y)⟩ =
        .ok (.cons "defaultTableExpirationMs" (.num x)
          (.cons "location" (.str y) .nil)) ∧
      (ds.patch ⟨some (.num x), none, none, some (.str y)⟩ conn).2.requested =
        conn.requested ++
          [⟨"PATCH", ds.path, .nil,
            some (.obj (.cons "defaultTableExpirationMs" (.num x)
              (.cons "location" (.str y) .nil)))⟩]) ∧
    (∀ (ds : Dataset) (conn : Conn) (v : JValue), validIntOrNull v = false →
      ds.patch ⟨some v, none, none, none⟩ conn =
        (.error .invalidArgument, conn)) := by
  constructor
  · intro ds conn x y
    exact ⟨rfl, Conn.apiRequest_requested conn _⟩
  · intro ds conn v h
    simp [Dataset.patch, Dataset.buildPartial, checkedField, h]

/-- Witness for C7 at the values of the unit tests: the overrides of
test_patch_w_alternate_client serialize to exactly two fields, and the
BOGUS expiration of test_patch_w_invalid_expiration fails fast. -/
theorem patch_spec_witness :
    Dataset.buildPartial ⟨some (.num 12345), none, none, some (.str "EU")⟩ =
      .ok (.cons "defaultTableExpirationMs" (.num 12345)
        (.cons "location" (.str "EU") .nil)) ∧
    Dataset.patch dsFixture ⟨some (.str "BOGUS"), none, none, none⟩ ⟨[], []⟩ =
      (.error .invalidArgument, ⟨[], []⟩) :=
  ⟨(patch_spec.1 dsFixture ⟨[], []⟩ 12345 "EU").1,
   patch_spec.2 dsFixture ⟨[], []⟩ (.str "BOGUS") rfl⟩

/-- C8: the existence check issues one GET of the dataset path with the
single query parameter fields=id; it reports false exactly when the
collaborator answers NotFound, true on any parsed response, and every
other collaborator error propagates unchanged. -/
theorem exists_check_spec (ds : Dataset) (conn : Conn) :
    (ds.existsCheck conn).2.requested =
      conn.requested ++
        [⟨"GET", ds.path, .cons "fields" (.str "id") .nil, none⟩] ∧
    ((conn.apiRequest
        ⟨"GET", ds.path, .cons "fields" (.str "id") .nil, none⟩).1 =
          .error .notFound →
      (ds.existsCheck conn).1 = .ok false) ∧
    (∀ o : JObj,
      (conn.apiRequest
        ⟨"GET", ds.path, .cons "fields" (.str "id") .nil, none⟩).1 = .ok o →
      (ds.existsCheck conn).1 = .ok true) ∧
    (∀ e : DsError, e ≠ .notFound →
      (conn.apiRequest
        ⟨"GET", ds.path, .cons "fields" (.str "id") .nil, none⟩).1 =
          .error e →
      (ds.existsCheck conn).1 = .error e) := by
  refine ⟨Conn.apiRequest_requested conn _, ?_, ?_, ?_⟩
  · intro h
    simp [Dataset.existsCheck, h]
  · intro o h
    simp [Dataset.existsCheck, h]
  · intro e hne h
    cases e <;> simp_all [Dataset.existsCheck]

/-- Witness for C8: an exhausted connection (the test double answer for
a miss) yields false, a parsed response yields true, and a non-NotFound
collaborator error propagates unchanged. -/
theorem exists_check_spec_witness :
    (dsFixture.existsCheck ⟨[], []⟩).1 = .ok false ∧
    (dsFixture.existsCheck ⟨[.ok .nil], []⟩).1 = .ok true ∧
    (dsFixture.existsCheck ⟨[.error (.clientError "boom")], []⟩).1 =
      .error (.clientError "boom") ∧
    (dsFixture.existsCheck ⟨[], []⟩).2.requested =
      [⟨"GET", dsFixture.path, .cons "fields" (.str "id") .nil, none⟩] :=
  ⟨(exists_check_spec dsFixture ⟨[], []⟩).2.1 rfl,
   (exists_check_spec dsFixture ⟨[.ok .nil], []⟩).2.2.1 .nil rfl,
   (exists_check_spec dsFixture ⟨[.error (.clientError "boom")], []⟩).2.2.2
     (.clientError "boom") (by decide) rfl,
   (exists_check_spec dsFixture ⟨[], []⟩).1⟩

/-- C9: a table listing issues one GET of the tables path whose query
parameters are exactly the provided maxResults and pageToken (none when
absent); a response with no table items and no nextPageToken yields the
empty page with a null token, and a response carrying items and a
nextPageToken yields them verbatim, making the token available after
the page is consumed. -/
theorem list_tables_spec (ds : Dataset) (conn : Conn) :
    (∀ (m : Option Int) (t : Option String),
      (ds.list_tables m t conn).2.requested =
        conn.requested ++
          [⟨"GET", ds.path ++ "/tables", Dataset.listTablesQuery m t,
            none⟩]) ∧
    Dataset.listTablesQuery none none = .nil ∧
    (∀ (m : Int) (t : String),
      Dataset.listTablesQuery (some m) (some t) =
        .cons "maxResults" (.num m) (.cons "pageToken" (.str t) .nil)) ∧
    (∀ (m : Option Int) (t : Option String) (o : JObj),
      (conn.apiRequest
        ⟨"GET", ds.path ++ "/tables", Dataset.listTablesQuery m t,
          none⟩).1 = .ok o →
      o.lookup "tables" = none → o.lookup "nextPageToken" = none →
      (ds.list_tables m t conn).1 = .ok ([], none)) ∧
    (∀ (m : Option Int) (t : Option String) (o : JObj) (items : JList)
        (tok : String),
      (conn.apiRequest
        ⟨"GET", ds.path ++ "/tables", Dataset.listTablesQuery m t,
          none⟩).1 = .ok o →
      o.lookup "tables" = some (.arr items) →
      o.lookup "nextPageToken" = some (.str tok) →
      (ds.list_tables m t conn).1 = .ok (items.toList, some tok)) := by
  refine ⟨?_, rfl, fun m t => rfl, ?_, ?_⟩
  · intro m t
    exact Conn.apiRequest_requested conn _
  · intro m t o h h1 h2
    simp [Dataset.list_tables, h, h1, h2]
  · intro m t o items tok h h1 h2
    simp [Dataset.list_tables, h, h1, h2]

/-- Witness for C9: an empty response yields the empty page with a null
token; a response carrying one table and a token yields both; the
explicit paging arguments of the unit test serialize to exactly the
maxResults and pageToken query parameters. -/
theorem list_tables_spec_witness :
    (dsFixture.list_tables none none ⟨[.ok .nil], []⟩).1 = .ok ([], none) ∧
    (dsFixture.list_tables (some 3) (some "TOKEN")
        ⟨[.ok (JObj.cons "tables" (.arr (.cons (.str "t1") .nil))
          (.cons "nextPageToken" (.str "TOKEN2") .nil))], []⟩).1 =
      .ok ([.str "t1"], some "TOKEN2") ∧
    Dataset.listTablesQuery (some 3) (some "TOKEN") =
      .cons "maxResults" (.num 3) (.cons "pageToken" (.str "TOKEN") .nil) ∧
    (dsFixture.list_tables (some 3) (some "TOKEN") ⟨[], []⟩).2.requested =
      [⟨"GET", dsFixture.path ++ "/tables",
        Dataset.listTablesQuery (some 3) (some "TOKEN"), none⟩] :=
  ⟨(list_tables_spec dsFixture ⟨[.ok .nil], []⟩).2.2.2.1 none none .nil
     rfl rfl rfl,
   (list_tables_spec dsFixture
       ⟨[.ok (JObj.cons "tables" (.arr (.cons (.str "t1") .nil))
         (.cons "nextPageToken" (.str "TOKEN2") .nil))], []⟩).2.2.2.2
     (some 3) (some "TOKEN")
     (JObj.cons "tables" (.arr (.cons (.str "t1") .nil))
       (.cons "nextPageToken" (.str "TOKEN2") .nil))
     (.cons (.str "t1") .nil) "TOKEN2" rfl rfl rfl,
   (list_tables_spec dsFixture ⟨[], []⟩).2.2.1 3 "TOKEN",
   (list_tables_spec dsFixture ⟨[], []⟩).1 (some 3) (some "TOKEN")⟩
